import Mathlib

/-!
Verification of the Ripple gateway extension-loading and provider-broker
subsystem, shallowly embedded from the repository sources:

* core/main/src/state/extn_state.rs          (LoadedLibrary, ExtnState)
* core/main/src/bootstrap/extn/load_extn_step.rs (LoadExtensionsStep::setup)
* core/main/src/firebolt/handlers/player_rpc.rs  (PlayerImpl::call_player_provider)
* core/main/src/utils/runtime.rs             (run)
* core/sdk/src/api/firebolt/fb_player.rs     (ToProviderResponse impls)

HashMaps are embedded as association lists with replace-on-insert
semantics; a tokio mpsc sender handle is embedded as an opaque Nat.
-/

/-! ## Association-list embedding of HashMap -/

/-- Lookup in an association list, mirroring HashMap::get. -/
def hmLookup {κ α : Type} [DecidableEq κ] (k : κ) : List (κ × α) → Option α
  | [] => none
  | (k1, v) :: rest => if k = k1 then some v else hmLookup k rest

/-- Removal of a key, mirroring HashMap::remove. -/
def hmRemove {κ α : Type} [DecidableEq κ] (k : κ) : List (κ × α) → List (κ × α)
  | [] => []
  | (k1, v) :: rest =>
    if k1 = k then hmRemove k rest else (k1, v) :: hmRemove k rest

/-- Insertion, mirroring HashMap::insert (replaces any previous binding). -/
def hmInsert {κ α : Type} [DecidableEq κ] (k : κ) (v : α) (m : List (κ × α)) :
    List (κ × α) :=
  (k, v) :: hmRemove k m

theorem hmLookup_remove_ne {κ α : Type} [DecidableEq κ] (k k1 : κ) (h : k ≠ k1) :
    ∀ m : List (κ × α), hmLookup k (hmRemove k1 m) = hmLookup k m := by
  intro m
  induction m with
  | nil => rfl
  | cons hd tl ih =>
    obtain ⟨k2, v⟩ := hd
    by_cases h2 : k2 = k1
    · subst h2
      simp [hmRemove, hmLookup, ih, h]
    · by_cases h3 : k = k2
      · subst h3
        simp [hmRemove, hmLookup, h2]
      · simp [hmRemove, hmLookup, h2, h3, ih]

theorem hmLookup_insert_self {κ α : Type} [DecidableEq κ] (k : κ) (v : α)
    (m : List (κ × α)) : hmLookup k (hmInsert k v m) = some v := by
  simp [hmInsert, hmLookup]

theorem hmLookup_insert_ne {κ α : Type} [DecidableEq κ] (k k1 : κ) (v : α)
    (m : List (κ × α)) (h : k ≠ k1) :
    hmLookup k (hmInsert k1 v m) = hmLookup k m := by
  simp only [hmInsert, hmLookup, if_neg h]
  exact hmLookup_remove_ne k k1 h m

/-! ## Extension status and identifiers -/

/-- Modelled from the spec: the per-extension readiness status tracked by the
registry (ripple-sdk status_update is not part of the sources under review);
the spec states an extension is either unknown, initializing, or ready. -/
inductive ExtnStatus
  | unknown
  | initializing
  | ready
deriving DecidableEq, Repr

/-- Modelled from the spec: an ExtnId identifies a capability endpoint by a
structured string identifier of shape namespace:kind:name (ripple-sdk
extn_id is not part of the sources under review). -/
structure ExtnId where
  nspace : String
  kind : String
  name : String
deriving DecidableEq, Repr

/-- String rendering of an ExtnId, used as the key of the registry maps. -/
def ExtnId.toString (i : ExtnId) : String :=
  i.nspace ++ ":" ++ i.kind ++ ":" ++ i.name

/-- Splits a character list at every colon (structural helper for parsing). -/
def splitColon : List Char → List (List Char)
  | [] => [[]]
  | c :: rest =>
    if c = ':' then [] :: splitColon rest
    else
      match splitColon rest with
      | [] => [[c]]
      | g :: gs => (c :: g) :: gs

/-- Modelled from the spec: parsing an ExtnId from its string form fails
(fatally, for channels) whenever the string is not of the structured
namespace:kind:name shape. -/
def ExtnId.tryFrom (s : String) : Option ExtnId :=
  match (splitColon s.data).map (fun cs => String.mk cs) with
  | [a, b, c] => some { nspace := a, kind := b, name := c }
  | _ => none

/-- Modelled from the spec: a symbol is a channel when its id claims the
channel kind. -/
def ExtnId.is_channel (i : ExtnId) : Bool := i.kind = "channel"

/-- Modelled from the spec: a symbol is a plain extension when its id claims
the extension kind. -/
def ExtnId.is_extn (i : ExtnId) : Bool := i.kind = "extension"

/-- Modelled from the spec: the parsed id identifies the device channel. -/
def ExtnId.is_device_channel (i : ExtnId) : Bool :=
  i.kind = "channel" && i.nspace = "device"

/-! ## Manifest and metadata symbol tables -/

/-- Manifest symbol entry (ExtnManifestEntry.symbols element): the id is kept
in raw string form together with the declared capability uses list. -/
structure ExtnSymbol where
  id : String
  uses : List String
deriving DecidableEq, Repr

/-- Metadata symbol as exported by a loaded library: its id is already a
structured ExtnId. -/
structure MetadataSymbol where
  id : ExtnId
deriving DecidableEq, Repr

/-- The well-known metadata export of a library. -/
structure ExtnMetadata where
  name : String
  symbols : List MetadataSymbol
deriving DecidableEq, Repr

/-- A manifest entry naming a library path and its expected symbols. -/
structure ExtnManifestEntry where
  path : String
  symbols : List ExtnSymbol
deriving DecidableEq, Repr

/-- A boxed channel object produced by a channel builder. -/
structure ExtnChannel where
  tag : Nat
deriving DecidableEq, Repr

/-- Modelled from the spec: the OS-level library handle; the only observable
used by the bootstrap step is its channel-builder export, which may be
absent (load_channel_builder failure) and whose invocation may itself fail. -/
structure Library where
  channelBuilder : Option (String → Option ExtnChannel)

/-- Modelled from the spec: loading the channel-builder export of a library
(ripple-sdk ffi_channel::load_channel_builder is not part of the sources
under review); returns none when the export is missing or invalid. -/
def load_channel_builder (l : Library) : Option (String → Option ExtnChannel) :=
  l.channelBuilder

/-- LoadedLibrary from extn_state.rs: library handle, metadata, manifest entry. -/
structure LoadedLibrary where
  library : Library
  metadata : ExtnMetadata
  entry : ExtnManifestEntry

/-- LoadedLibrary::get_channels from extn_state.rs: collects the string ids of
the metadata symbols of channel kind, then keeps the manifest entry symbols
whose id occurs among them. -/
def LoadedLibrary.get_channels (l : LoadedLibrary) : List ExtnSymbol :=
  let extn_ids : List String :=
    ((l.metadata.symbols.filter (fun x => x.id.is_channel)).map
      (fun x => x.id.toString))
  l.entry.symbols.filter (fun x => extn_ids.contains x.id)

/-- LoadedLibrary::get_extns from extn_state.rs. -/
def LoadedLibrary.get_extns (l : LoadedLibrary) : List ExtnId :=
  (l.metadata.symbols.filter (fun x => x.id.is_extn)).map (fun x => x.id)

/-- PreLoadedExtnChannel from extn_state.rs. -/
structure PreLoadedExtnChannel where
  channel : ExtnChannel
  extn_id : ExtnId
  symbol : ExtnSymbol
deriving DecidableEq, Repr

/-! ## ExtnState registry -/

/-- ExtnState from extn_state.rs, restricted to the two registry maps the
claims are about; the crossbeam sender and the channel batches live in
sibling fields and do not interact with these maps. A status listener
(tokio mpsc sender handle) is embedded as an opaque Nat. -/
structure ExtnState where
  extn_status_map : List (String × ExtnStatus)
  extn_status_listeners : List (String × Nat)
deriving DecidableEq, Repr

/-- ExtnState::new: both registry maps start empty. -/
def ExtnState.new : ExtnState :=
  { extn_status_map := [], extn_status_listeners := [] }

/-- ExtnState::update_extn_status: unconditionally overwrites the stored
status for the id. -/
def ExtnState.update_extn_status (s : ExtnState) (id : ExtnId)
    (status : ExtnStatus) : ExtnState :=
  { s with extn_status_map := hmInsert id.toString status s.extn_status_map }

/-- ExtnState::is_extn_ready: lookup returning true only when the stored
status is Ready. -/
def ExtnState.is_extn_ready (s : ExtnState) (extn_id : ExtnId) : Bool :=
  match hmLookup extn_id.toString s.extn_status_map with
  | some ExtnStatus.ready => true
  | _ => false

/-- ExtnState::add_extn_status_listener: returns true without registering when
the extension is already ready, otherwise records the sender and returns
false. The returned pair is (updated state, returned boolean). -/
def ExtnState.add_extn_status_listener (s : ExtnState) (id : ExtnId)
    (sender : Nat) : ExtnState × Bool :=
  if s.is_extn_ready id then (s, true)
  else
    ({ s with
        extn_status_listeners :=
          hmInsert id.toString sender s.extn_status_listeners }, false)

/-- ExtnState::get_extn_status_listener. -/
def ExtnState.get_extn_status_listener (s : ExtnState) (id : ExtnId) :
    Option Nat :=
  hmLookup id.toString s.extn_status_listeners

/-- ExtnState::clear_status_listener. -/
def ExtnState.clear_status_listener (s : ExtnState) (extn_id : ExtnId) :
    ExtnState :=
  { s with
      extn_status_listeners :=
        hmRemove extn_id.toString s.extn_status_listeners }

/-- ExtnState::start_channel spawns the channel task and registers its sender
with the client fabric; it reads but never mutates the two registry maps,
so on this state it is the identity. -/
def ExtnState.start_channel (s : ExtnState) : ExtnState := s

/-! ## Channel bootstrap step (load_extn_step.rs) -/

/-- Modelled from the spec: the ripple-sdk error enum (utils/error.rs is not
part of the sources under review); bootstrap failures use the fatal
BootstrapError variant. -/
inductive RippleError
  | bootstrapError
  | invalidOutput
  | extnError
deriving DecidableEq, Repr

/-- The inner for-loop of LoadExtensionsStep::setup over the channel symbols
of one library, threading the two mutable channel batches. A channel whose
id fails to parse, or whose library has no loadable channel builder, aborts
with BootstrapError; a channel whose builder invocation fails is passed
over without being pushed to either batch (the source has no else branch
on the build result), and iteration continues. -/
def LoadExtensionsStep.loadChannels (library : Library)
    (channels : List ExtnSymbol)
    (device_channels deferred_channels : List PreLoadedExtnChannel) :
    Except RippleError (List PreLoadedExtnChannel × List PreLoadedExtnChannel) :=
  match channels with
  | [] => Except.ok (device_channels, deferred_channels)
  | channel :: rest =>
    match ExtnId.tryFrom channel.id with
    | some extn_id =>
      match load_channel_builder library with
      | some builder =>
        match builder extn_id.toString with
        | some extn_channel =>
          let preloaded_channel : PreLoadedExtnChannel :=
            { channel := extn_channel, extn_id := extn_id, symbol := channel }
          if extn_id.is_device_channel then
            LoadExtensionsStep.loadChannels library rest
              (device_channels ++ [preloaded_channel]) deferred_channels
          else
            LoadExtensionsStep.loadChannels library rest
              device_channels (deferred_channels ++ [preloaded_channel])
        | none =>
          LoadExtensionsStep.loadChannels library rest
            device_channels deferred_channels
      | none => Except.error RippleError.bootstrapError
    | none => Except.error RippleError.bootstrapError

/-- The outer for-loop of LoadExtensionsStep::setup over the loaded libraries. -/
def LoadExtensionsStep.loadLibraries (libs : List LoadedLibrary)
    (device_channels deferred_channels : List PreLoadedExtnChannel) :
    Except RippleError (List PreLoadedExtnChannel × List PreLoadedExtnChannel) :=
  match libs with
  | [] => Except.ok (device_channels, deferred_channels)
  | extn :: rest =>
    match LoadExtensionsStep.loadChannels extn.library extn.get_channels
        device_channels deferred_channels with
    | Except.ok (d1, d2) => LoadExtensionsStep.loadLibraries rest d1 d2
    | Except.error e => Except.error e

/-- LoadExtensionsStep::setup from load_extn_step.rs: iterates the loaded
libraries accumulating the device and deferred channel batches; on success
the two batches are recorded into the registry (returned here as the ok
value), on failure nothing is recorded (the error return precedes both
write-lock sections in the source). -/
def LoadExtensionsStep.setup (loaded_extensions : List LoadedLibrary) :
    Except RippleError (List PreLoadedExtnChannel × List PreLoadedExtnChannel) :=
  LoadExtensionsStep.loadLibraries loaded_extensions [] []

/-- The three per-channel stages of the bootstrap step fused into one partial
function: parse the id, load the channel builder, invoke it; some exactly
when all three stages succeed. -/
def buildChannel (library : Library) (channel : ExtnSymbol) :
    Option PreLoadedExtnChannel :=
  match ExtnId.tryFrom channel.id with
  | some extn_id =>
    match load_channel_builder library with
    | some builder =>
      match builder extn_id.toString with
      | some extn_channel =>
        some { channel := extn_channel, extn_id := extn_id, symbol := channel }
      | none => none
    | none => none
  | none => none

/-- All channels discovered by the bootstrap step across the loaded
libraries, in discovery order. -/
def discoveredChannels (libs : List LoadedLibrary) :
    List PreLoadedExtnChannel :=
  libs.flatMap (fun lib => lib.get_channels.filterMap (buildChannel lib.library))

/-! ## Provider broker and player RPC (player_rpc.rs) -/

/-- PlayerMediaSession from fb_player.rs. -/
structure PlayerMediaSession where
  media_session_id : String
deriving DecidableEq, Repr

/-- PlayerError from fb_player.rs. -/
structure PlayerError where
  code : Nat
  message : String
deriving DecidableEq, Repr

/-- PlayerErrorResponse from fb_player.rs. -/
structure PlayerErrorResponse where
  correlation_id : String
  result : PlayerError
deriving DecidableEq, Repr

/-- PlayerStatusState from fb_player.rs. -/
inductive PlayerStatusState
  | idle
  | pending
  | playing
  | blocked
  | failed
deriving DecidableEq, Repr

/-- PlayerStatus from fb_player.rs (blocked_reason kept as raw string). -/
structure PlayerStatus where
  media_session_id : String
  state : PlayerStatusState
  blocked_reason : Option String
deriving DecidableEq, Repr

/-- PlayerProgress from fb_player.rs. -/
structure PlayerProgress where
  speed : Nat
  start_position : Nat
  position : Nat
  end_position : Nat
  live_sync_time : Option String
deriving DecidableEq, Repr

/-- StreamingPlayerInstance from fb_player.rs. -/
structure StreamingPlayerInstance where
  player_id : String
  window_id : String
deriving DecidableEq, Repr

/-- Modelled from the spec: the provider-broker response payload enum
(ripple-sdk firebolt/provider.rs is not part of the sources under review);
its variants are those matched on and constructed by the RPC handlers,
including the per-operation error variants. -/
inductive ProviderResponsePayload
  | challengeResponse (granted : Option Bool)
  | challengeError (err : PlayerError)
  | playerLoad (r : PlayerMediaSession)
  | playerLoadError (e : PlayerErrorResponse)
  | playerPlay (r : PlayerMediaSession)
  | playerPlayError (e : PlayerErrorResponse)
  | playerStop (r : PlayerMediaSession)
  | playerStopError (e : PlayerErrorResponse)
  | playerStatus (r : PlayerStatus)
  | playerStatusError (e : PlayerErrorResponse)
  | playerProgress (r : PlayerProgress)
  | playerProgressError (e : PlayerErrorResponse)
  | streamingPlayerCreate (r : StreamingPlayerInstance)
  | streamingPlayerCreateError (e : PlayerErrorResponse)
deriving DecidableEq, Repr

/-- ProviderResponse as handed to ProviderBroker::provider_response. -/
structure ProviderResponse where
  correlation_id : String
  result : ProviderResponsePayload
deriving DecidableEq, Repr

/-- ToProviderResponse for PlayerErrorResponse from fb_player.rs: the result
payload is always the PlayerLoadError variant. -/
def PlayerErrorResponse.to_provider_response (e : PlayerErrorResponse) :
    ProviderResponse :=
  { correlation_id := e.correlation_id
    result := ProviderResponsePayload.playerLoadError e }

/-- The message PlayerImpl::play_error hands to the broker: it forwards its
PlayerErrorResponse through the generic PlayerImpl::provider_response,
which converts via ToProviderResponse. -/
def PlayerImpl.play_error_msg (resp : PlayerErrorResponse) : ProviderResponse :=
  resp.to_provider_response

/-- The message PlayerImpl::stop_error hands to the broker. -/
def PlayerImpl.stop_error_msg (resp : PlayerErrorResponse) : ProviderResponse :=
  resp.to_provider_response

/-- The message PlayerImpl::status_error hands to the broker. -/
def PlayerImpl.status_error_msg (resp : PlayerErrorResponse) : ProviderResponse :=
  resp.to_provider_response

/-- The message PlayerImpl::progress_error hands to the broker. -/
def PlayerImpl.progress_error_msg (resp : PlayerErrorResponse) :
    ProviderResponse :=
  resp.to_provider_response

/-- Modelled from the spec: the provider registration table of the
ProviderBroker (provider_broker.rs is not part of the sources under
review), mapping (capability, method) to the registered provider app id. -/
structure ProviderBrokerState where
  provider_methods : List ((String × String) × String)
deriving DecidableEq, Repr

/-- Modelled from the spec: the resolution of the oneshot completion channel
created by a caller of ProviderBroker::invoke_method. When no provider is
registered for (capability, method) the request fails immediately and the
completion channel is dropped without a value, so the receiving end
resolves to none; when a provider is registered, the channel resolves with
whatever the provider eventually sends (some payload), or none if the
pending handle is dropped unfulfilled. -/
def ProviderBroker.invoke_rx (st : ProviderBrokerState)
    (capability method : String)
    (providerReply : Option ProviderResponsePayload) :
    Option ProviderResponsePayload :=
  match hmLookup (capability, method) st.provider_methods with
  | some _ => providerReply
  | none => none

/-- PlayerImpl::call_player_provider from player_rpc.rs: builds the
ProviderBrokerRequest around a fresh oneshot channel, hands it to
ProviderBroker::invoke_method, then awaits the receiving end; an Ok
resolution is returned as success and a closed-without-value channel as
the rpc error string. -/
def PlayerImpl.call_player_provider (st : ProviderBrokerState)
    (capability method : String)
    (providerReply : Option ProviderResponsePayload) :
    Except String ProviderResponsePayload :=
  match ProviderBroker.invoke_rx st capability method providerReply with
  | some result => Except.ok result
  | none => Except.error "Error returning back from player provider"

/-! ## Process runtime (runtime.rs) -/

/-- exitcode::OK from the exitcode crate. -/
def exitcodeOk : Int := 0

/-- exitcode::SOFTWARE from the exitcode crate. -/
def exitcodeSoftware : Int := 70

/-- The run function from runtime.rs as the exit status it passes to
std::process::exit: OK when boot returns Ok, SOFTWARE when boot returns
Err; the match has no other arm. -/
def run (boot_result : Except RippleError Unit) : Int :=
  match boot_result with
  | Except.ok _ => exitcodeOk
  | Except.error _ => exitcodeSoftware

/-! ## Registry operation sequences -/

/-- One public registry operation, for stating how readiness evolves under
the operations exposed by ExtnState. -/
inductive ExtnOp
  | update (id : ExtnId) (status : ExtnStatus)
  | addListener (id : ExtnId) (sender : Nat)
  | clearListener (id : ExtnId)
  | startChannel
deriving DecidableEq, Repr

/-- Applies one public registry operation to the state. -/
def ExtnState.applyOp (s : ExtnState) : ExtnOp → ExtnState
  | ExtnOp.update id status => s.update_extn_status id status
  | ExtnOp.addListener id sender => (s.add_extn_status_listener id sender).1
  | ExtnOp.clearListener id => s.clear_status_listener id
  | ExtnOp.startChannel => s.start_channel

/-- Applies a sequence of update_extn_status calls for a fixed id. -/
def ExtnState.applyStatusUpdates (s : ExtnState) (id : ExtnId)
    (statuses : List ExtnStatus) : ExtnState :=
  statuses.foldl (fun acc st => acc.update_extn_status id st) s

/-! ## Concrete instances used by counterexamples and witnesses -/

/-- A channel builder whose invocation always fails. -/
def c1Builder : String → Option ExtnChannel := fun _ => none

/-- The device channel symbol used by the bootstrap examples. -/
def c1Symbol : ExtnSymbol := { id := "device:channel:thunder", uses := [] }

/-- A library whose single channel parses and whose builder export loads,
but whose builder invocation fails. -/
def c1BuildFailLib : LoadedLibrary :=
  { library := { channelBuilder := some c1Builder }
    metadata :=
      { name := "thunder"
        symbols :=
          [{ id := { nspace := "device", kind := "channel", name := "thunder" } }] }
    entry := { path := "libthunder.so", symbols := [c1Symbol] } }

/-- A library advertising one channel but with no loadable builder export. -/
def c1NoBuilderLib : LoadedLibrary :=
  { library := { channelBuilder := none }
    metadata :=
      { name := "thunder"
        symbols :=
          [{ id := { nspace := "device", kind := "channel", name := "thunder" } }] }
    entry := { path := "libthunder.so", symbols := [c1Symbol] } }

/-- Registry id used by the status examples. -/
def c3Id : ExtnId := { nspace := "device", kind := "channel", name := "info" }

/-- A registry state in which c3Id has reached Ready. -/
def c3Ready : ExtnState := ExtnState.new.update_extn_status c3Id ExtnStatus.ready

/-- Metadata symbol a (channel kind). -/
def c4SymA : MetadataSymbol := { id := { nspace := "ns", kind := "channel", name := "a" } }

/-- Metadata symbol b (channel kind). -/
def c4SymB : MetadataSymbol := { id := { nspace := "ns", kind := "channel", name := "b" } }

/-- Manifest entry symbol matching c4SymA. -/
def c4EntryA : ExtnSymbol := { id := "ns:channel:a", uses := [] }

/-- Manifest entry symbol matching c4SymB. -/
def c4EntryB : ExtnSymbol := { id := "ns:channel:b", uses := [] }

/-- A library whose manifest entry declares its symbols in the order opposite
to the metadata symbol table. -/
def c4Lib : LoadedLibrary :=
  { library := { channelBuilder := none }
    metadata := { name := "m", symbols := [c4SymA, c4SymB] }
    entry := { path := "p", symbols := [c4EntryB, c4EntryA] } }

/-- Registry id used by the listener examples. -/
def c5Id : ExtnId := { nspace := "device", kind := "channel", name := "info" }

/-- A registry state in which c5Id has reached Ready. -/
def c5Ready : ExtnState := ExtnState.new.update_extn_status c5Id ExtnStatus.ready

/-- A channel builder that always succeeds. -/
def c6Builder : String → Option ExtnChannel := fun _ => some { tag := 7 }

/-- A library exposing one device channel and one distributor channel, all of
whose stages succeed. -/
def c6Lib : LoadedLibrary :=
  { library := { channelBuilder := some c6Builder }
    metadata :=
      { name := "mixed"
        symbols :=
          [{ id := { nspace := "device", kind := "channel", name := "thunder" } },
           { id := { nspace := "distributor", kind := "channel", name := "general" } }] }
    entry :=
      { path := "libmixed.so"
        symbols :=
          [{ id := "device:channel:thunder", uses := ["config"] },
           { id := "distributor:channel:general", uses := [] }] } }

/-- Registry id used by the lookup examples. -/
def c8Id : ExtnId := { nspace := "device", kind := "channel", name := "info" }

/-- Whether the boot sequence returned success. -/
def bootSucceeded (r : Except RippleError Unit) : Bool :=
  match r with
  | Except.ok _ => true
  | Except.error _ => false

/-! ## Helper lemmas -/

theorem is_extn_ready_iff (s : ExtnState) (id : ExtnId) :
    s.is_extn_ready id = true ↔
      hmLookup id.toString s.extn_status_map = some ExtnStatus.ready := by
  unfold ExtnState.is_extn_ready
  cases h : hmLookup id.toString s.extn_status_map with
  | none => simp
  | some st => cases st <;> simp

theorem is_extn_ready_congr (s t : ExtnState) (id : ExtnId)
    (h : s.extn_status_map = t.extn_status_map) :
    s.is_extn_ready id = t.is_extn_ready id := by
  unfold ExtnState.is_extn_ready
  rw [h]

theorem add_listener_status_map (s : ExtnState) (id : ExtnId) (sender : Nat) :
    ((s.add_extn_status_listener id sender).1).extn_status_map =
      s.extn_status_map := by
  unfold ExtnState.add_extn_status_listener
  by_cases h : s.is_extn_ready id = true
  · simp [h]
  · simp [h]

/-! ## C2: no registered provider means the player call errors -/

/-- C2: for every call to call_player_provider, if the completion channel is
dropped without a value having been sent — in particular when no provider
is registered for the request's (capability, method) — then
call_player_provider returns an error result, never a success value. -/
theorem C2_no_provider_errors (st : ProviderBrokerState)
    (capability method : String)
    (providerReply : Option ProviderResponsePayload)
    (h : hmLookup (capability, method) st.provider_methods = none) :
    ProviderBroker.invoke_rx st capability method providerReply = none ∧
    PlayerImpl.call_player_provider st capability method providerReply =
      Except.error "Error returning back from player provider" := by
  have hrx : ProviderBroker.invoke_rx st capability method providerReply = none := by
    unfold ProviderBroker.invoke_rx
    rw [h]
  refine ⟨hrx, ?_⟩
  unfold PlayerImpl.call_player_provider
  rw [hrx]

/-- C2 witness: with an empty registration table, a player.load provider call
resolves as the rpc error. -/
theorem C2_witness :
    PlayerImpl.call_player_provider { provider_methods := [] }
      "xrn:firebolt:capability:player:base" "load" none =
      Except.error "Error returning back from player provider" :=
  (C2_no_provider_errors { provider_methods := [] }
    "xrn:firebolt:capability:player:base" "load" none rfl).2

/-! ## C3: readiness is not monotonic under arbitrary updates -/

/-- C3 counterexample: a ready extension regresses when update_extn_status
overwrites its status with Unknown, so readiness is not preserved by every
subsequent operation. -/
theorem C3_counterexample :
    c3Ready.is_extn_ready c3Id = true ∧
    (c3Ready.applyOp (ExtnOp.update c3Id ExtnStatus.unknown)).is_extn_ready c3Id
      = false := by
  constructor
  · decide
  · decide

/-- C3 (amended): once is_extn_ready(id) is true it remains true after every
subsequent add_extn_status_listener, clear_status_listener, start_channel,
and after every update_extn_status whose key is a different id string or
whose status is Ready; an update_extn_status storing a non-Ready status for
the same id string can regress it (callers are responsible for
monotonicity). -/
theorem C3_ready_monotone_without_downgrade (s : ExtnState) (id : ExtnId)
    (op : ExtnOp) (hready : s.is_extn_ready id = true)
    (hop : ∀ id2 status, op = ExtnOp.update id2 status →
      id2.toString = id.toString → status = ExtnStatus.ready) :
    (s.applyOp op).is_extn_ready id = true := by
  cases op with
  | update id2 status =>
    by_cases hkey : id.toString = id2.toString
    · have hst : status = ExtnStatus.ready := hop id2 status rfl hkey.symm
      subst hst
      rw [is_extn_ready_iff]
      show hmLookup id.toString
        (hmInsert id2.toString ExtnStatus.ready s.extn_status_map) = _
      rw [hkey, hmLookup_insert_self]
    · rw [is_extn_ready_iff]
      show hmLookup id.toString
        (hmInsert id2.toString status s.extn_status_map) = _
      rw [hmLookup_insert_ne _ _ _ _ hkey]
      exact (is_extn_ready_iff s id).mp hready
  | addListener id2 sender =>
    have hmap := add_listener_status_map s id2 sender
    rw [ExtnState.applyOp, is_extn_ready_congr _ s id hmap]
    exact hready
  | clearListener id2 =>
    rw [ExtnState.applyOp]
    rw [is_extn_ready_congr (s.clear_status_listener id2) s id rfl]
    exact hready
  | startChannel =>
    exact hready

/-- C3 witness: a Ready re-write for the same id keeps the extension ready. -/
theorem C3_witness :
    (c3Ready.applyOp (ExtnOp.update c3Id ExtnStatus.ready)).is_extn_ready c3Id
      = true :=
  C3_ready_monotone_without_downgrade c3Ready c3Id
    (ExtnOp.update c3Id ExtnStatus.ready) (by decide)
    (by intro id2 status heq hkey; cases heq; rfl)

/-! ## C5: listener registration against an already-ready extension -/

/-- C5: if the stored status for the id equals Ready at call time,
add_extn_status_listener returns true and leaves the state (hence the
listener map) unchanged; otherwise it records the sender as the listener
for the id and returns false. -/
theorem C5_add_listener_behaviour (s : ExtnState) (id : ExtnId) (sender : Nat) :
    (hmLookup id.toString s.extn_status_map = some ExtnStatus.ready →
      s.add_extn_status_listener id sender = (s, true)) ∧
    (hmLookup id.toString s.extn_status_map ≠ some ExtnStatus.ready →
      s.add_extn_status_listener id sender =
        ({ s with
            extn_status_listeners :=
              hmInsert id.toString sender s.extn_status_listeners }, false)) := by
  constructor
  · intro h
    have hr : s.is_extn_ready id = true := (is_extn_ready_iff s id).mpr h
    unfold ExtnState.add_extn_status_listener
    simp [hr]
  · intro h
    have hr : s.is_extn_ready id = false := by
      cases hb : s.is_extn_ready id
      · rfl
      · exact absurd ((is_extn_ready_iff s id).mp hb) h
    unfold ExtnState.add_extn_status_listener
    simp [hr]

/-- C5 witness: registering a listener for an already-ready extension returns
true and leaves the state untouched. -/
theorem C5_witness :
    c5Ready.add_extn_status_listener c5Id 7 = (c5Ready, true) :=
  (C5_add_listener_behaviour c5Ready c5Id 7).1 (by decide)

/-! ## C7: update_extn_status is last-write-wins through is_extn_ready -/

/-- C7: after any nonempty sequence of update_extn_status calls for an id,
is_extn_ready(id) is true exactly when the final call stored Ready; in
particular repeated Ready writes keep it true and a Ready write followed
by an Unknown write leaves it false. -/
theorem C7_last_write_wins (s : ExtnState) (id : ExtnId)
    (statuses : List ExtnStatus) (final : ExtnStatus) :
    (s.applyStatusUpdates id (statuses ++ [final])).is_extn_ready id =
      decide (final = ExtnStatus.ready) := by
  unfold ExtnState.applyStatusUpdates
  rw [List.foldl_append]
  simp only [List.foldl_cons, List.foldl_nil]
  simp only [ExtnState.update_extn_status, ExtnState.is_extn_ready]
  rw [hmLookup_insert_self]
  cases final <;> simp

/-! ## C8: is_extn_ready is a pure total lookup -/

/-- C8: is_extn_ready(id) returns true exactly when the status map stores
Ready for the id, and a missing entry yields false (the lookup is a total
function, so no panic is possible). -/
theorem C8_ready_is_lookup (s : ExtnState) (id : ExtnId) :
    (s.is_extn_ready id = true ↔
      hmLookup id.toString s.extn_status_map = some ExtnStatus.ready) ∧
    (hmLookup id.toString s.extn_status_map = none →
      s.is_extn_ready id = false) := by
  refine ⟨is_extn_ready_iff s id, ?_⟩
  intro h
  unfold ExtnState.is_extn_ready
  rw [h]

/-- C8 witness: on the empty registry the lookup is absent and is_extn_ready
returns false. -/
theorem C8_witness : ExtnState.new.is_extn_ready c8Id = false :=
  (C8_ready_is_lookup ExtnState.new c8Id).2 rfl

/-! ## C9: run exits zero on success and SOFTWARE on error -/

/-- C9: run exits with the zero OK status exactly when the boot sequence
returns success and with the distinguished non-zero SOFTWARE status
exactly when it returns an error; no other exit value is possible. -/
theorem C9_exit_codes (r : Except RippleError Unit) :
    (run r = exitcodeOk ↔ bootSucceeded r = true) ∧
    (run r = exitcodeSoftware ↔ bootSucceeded r = false) ∧
    (run r = exitcodeOk ∨ run r = exitcodeSoftware) ∧
    exitcodeOk = 0 ∧ exitcodeSoftware ≠ 0 := by
  cases r <;> simp [run, bootSucceeded, exitcodeOk, exitcodeSoftware]

/-! ## C10: every player provider error is delivered as PlayerLoadError -/

/-- C10: to_provider_response on a PlayerErrorResponse always produces the
PlayerLoadError payload (with the original correlation id), and the play,
stop, status and progress error handlers all hand exactly that message to
the broker, never an operation-specific error variant. -/
theorem C10_error_payload_is_load_error (e : PlayerErrorResponse) :
    (e.to_provider_response).result = ProviderResponsePayload.playerLoadError e ∧
    (e.to_provider_response).correlation_id = e.correlation_id ∧
    PlayerImpl.play_error_msg e = e.to_provider_response ∧
    PlayerImpl.stop_error_msg e = e.to_provider_response ∧
    PlayerImpl.status_error_msg e = e.to_provider_response ∧
    PlayerImpl.progress_error_msg e = e.to_provider_response :=
  ⟨rfl, rfl, rfl, rfl, rfl, rfl⟩

/-! ## Bootstrap-step lemmas -/

theorem loadChannels_error_of_fail (library : Library) (c : ExtnSymbol)
    (hfail : ExtnId.tryFrom c.id = none ∨ load_channel_builder library = none) :
    ∀ (chs : List ExtnSymbol) (d1 d2 : List PreLoadedExtnChannel), c ∈ chs →
      LoadExtensionsStep.loadChannels library chs d1 d2 =
        Except.error RippleError.bootstrapError := by
  intro chs
  induction chs with
  | nil => intro d1 d2 hc; cases hc
  | cons head rest ih =>
    intro d1 d2 hc
    rcases List.mem_cons.mp hc with heq | hmem
    · subst heq
      rcases hfail with hp | hl
      · simp [LoadExtensionsStep.loadChannels, hp]
      · cases htf : ExtnId.tryFrom c.id with
        | none => simp [LoadExtensionsStep.loadChannels, htf]
        | some eid => simp [LoadExtensionsStep.loadChannels, htf, hl]
    · cases htf : ExtnId.tryFrom head.id with
      | none => simp [LoadExtensionsStep.loadChannels, htf]
      | some eid =>
        cases hl : load_channel_builder library with
        | none => simp [LoadExtensionsStep.loadChannels, htf, hl]
        | some b =>
          cases hb : b eid.toString with
          | none =>
            simp only [LoadExtensionsStep.loadChannels, htf, hl, hb]
            exact ih _ _ hmem
          | some ch =>
            simp only [LoadExtensionsStep.loadChannels, htf, hl, hb]
            by_cases hd : eid.is_device_channel = true
            · simp only [hd, if_true]
              exact ih _ _ hmem
            · simp only [hd, if_false, Bool.false_eq_true]
              exact ih _ _ hmem

theorem loadChannels_error_eq (library : Library) :
    ∀ (chs : List ExtnSymbol) (d1 d2 : List PreLoadedExtnChannel)
      (e : RippleError),
      LoadExtensionsStep.loadChannels library chs d1 d2 = Except.error e →
      e = RippleError.bootstrapError := by
  intro chs
  induction chs with
  | nil =>
    intro d1 d2 e h
    simp [LoadExtensionsStep.loadChannels] at h
  | cons head rest ih =>
    intro d1 d2 e h
    cases htf : ExtnId.tryFrom head.id with
    | none =>
      simp [LoadExtensionsStep.loadChannels, htf] at h
      exact h.symm
    | some eid =>
      cases hl : load_channel_builder library with
      | none =>
        simp [LoadExtensionsStep.loadChannels, htf, hl] at h
        exact h.symm
      | some b =>
        cases hb : b eid.toString with
        | none =>
          simp only [LoadExtensionsStep.loadChannels, htf, hl, hb] at h
          exact ih _ _ _ h
        | some ch =>
          simp only [LoadExtensionsStep.loadChannels, htf, hl, hb] at h
          by_cases hd : eid.is_device_channel = true
          · rw [if_pos hd] at h
            exact ih _ _ _ h
          · rw [if_neg (by simpa using hd)] at h
            exact ih _ _ _ h

theorem loadLibraries_error_of_fail (lib : LoadedLibrary) (c : ExtnSymbol)
    (hc : c ∈ lib.get_channels)
    (hfail : ExtnId.tryFrom c.id = none ∨ load_channel_builder lib.library = none) :
    ∀ (libs : List LoadedLibrary) (d1 d2 : List PreLoadedExtnChannel),
      lib ∈ libs →
      LoadExtensionsStep.loadLibraries libs d1 d2 =
        Except.error RippleError.bootstrapError := by
  intro libs
  induction libs with
  | nil => intro d1 d2 h; cases h
  | cons head rest ih =>
    intro d1 d2 hmem
    rcases List.mem_cons.mp hmem with heq | hmem2
    · subst heq
      have hch := loadChannels_error_of_fail lib.library c hfail
        lib.get_channels d1 d2 hc
      simp [LoadExtensionsStep.loadLibraries, hch]
    · cases hres : LoadExtensionsStep.loadChannels head.library
        head.get_channels d1 d2 with
      | ok p =>
        obtain ⟨p1, p2⟩ := p
        simp only [LoadExtensionsStep.loadLibraries, hres]
        exact ih p1 p2 hmem2
      | error e =>
        have he := loadChannels_error_eq head.library head.get_channels d1 d2 e hres
        subst he
        simp [LoadExtensionsStep.loadLibraries, hres]

/-! ## C1: failure handling of the channel-bootstrap step -/

/-- C1 counterexample: a channel whose id parses and whose builder export
loads, but whose builder invocation fails, is silently skipped while setup
still returns success with empty batches — refuting that every failing
stage aborts the step. -/
theorem C1_counterexample :
    ExtnId.tryFrom c1Symbol.id =
      some { nspace := "device", kind := "channel", name := "thunder" } ∧
    load_channel_builder c1BuildFailLib.library = some c1Builder ∧
    c1Builder
      (ExtnId.toString { nspace := "device", kind := "channel", name := "thunder" })
      = none ∧
    c1BuildFailLib.get_channels = [c1Symbol] ∧
    LoadExtensionsStep.setup [c1BuildFailLib] = Except.ok ([], []) :=
  ⟨by decide, rfl, rfl, by decide, rfl⟩

/-- C1 (amended): for every loaded library processed by setup, if any channel
symbol fails to parse into an ExtnId or the library's channel-builder
export fails to load, then setup returns the fatal bootstrap error (and no
channel batch is recorded); a failure of the builder invocation itself,
however, silently skips that channel and setup may still return success. -/
theorem C1_parse_or_load_failure_aborts (libs : List LoadedLibrary)
    (lib : LoadedLibrary) (c : ExtnSymbol) (hlib : lib ∈ libs)
    (hc : c ∈ lib.get_channels)
    (hfail : ExtnId.tryFrom c.id = none ∨
      load_channel_builder lib.library = none) :
    LoadExtensionsStep.setup libs = Except.error RippleError.bootstrapError :=
  loadLibraries_error_of_fail lib c hc hfail libs [] [] hlib

/-- C1 witness: a library whose builder export is missing makes setup abort
with the bootstrap error. -/
theorem C1_witness :
    LoadExtensionsStep.setup [c1NoBuilderLib] =
      Except.error RippleError.bootstrapError :=
  C1_parse_or_load_failure_aborts [c1NoBuilderLib] c1NoBuilderLib c1Symbol
    (List.mem_singleton.mpr rfl) (by decide) (Or.inr rfl)

/-! ## C6: the successful bootstrap partitions channels -/

theorem loadChannels_ok_of_success (library : Library) :
    ∀ (chs : List ExtnSymbol) (d1 d2 : List PreLoadedExtnChannel),
      (∀ c ∈ chs, (buildChannel library c).isSome = true) →
      LoadExtensionsStep.loadChannels library chs d1 d2 =
        Except.ok
          (d1 ++ (chs.filterMap (buildChannel library)).filter
              (fun p => p.extn_id.is_device_channel),
           d2 ++ (chs.filterMap (buildChannel library)).filter
              (fun p => !p.extn_id.is_device_channel)) := by
  intro chs
  induction chs with
  | nil =>
    intro d1 d2 h
    simp [LoadExtensionsStep.loadChannels]
  | cons head rest ih =>
    intro d1 d2 h
    have hhead := h head (List.mem_cons_self head rest)
    have hrest : ∀ c ∈ rest, (buildChannel library c).isSome = true :=
      fun c hcmem => h c (List.mem_cons_of_mem _ hcmem)
    cases htf : ExtnId.tryFrom head.id with
    | none =>
      exfalso
      simp only [buildChannel, htf] at hhead
      simp at hhead
    | some eid =>
      cases hl : load_channel_builder library with
      | none =>
        exfalso
        simp only [buildChannel, htf, hl] at hhead
        simp at hhead
      | some b =>
        cases hb : b eid.toString with
        | none =>
          exfalso
          simp only [buildChannel, htf, hl, hb] at hhead
          simp at hhead
        | some ch =>
          have hbc : buildChannel library head =
              some { channel := ch, extn_id := eid, symbol := head } := by
            simp only [buildChannel, htf, hl, hb]
          by_cases hd : eid.is_device_channel = true
          · simp only [LoadExtensionsStep.loadChannels, htf, hl, hb, hd, if_true]
            rw [ih _ _ hrest]
            simp [List.filterMap_cons, hbc, List.filter_cons, hd,
              List.append_assoc]
          · simp only [LoadExtensionsStep.loadChannels, htf, hl, hb, hd,
              Bool.false_eq_true, if_false]
            rw [ih _ _ hrest]
            simp [List.filterMap_cons, hbc, List.filter_cons, hd,
              List.append_assoc]

theorem loadLibraries_ok_of_success :
    ∀ (libs : List LoadedLibrary) (d1 d2 : List PreLoadedExtnChannel),
      (∀ lib ∈ libs, ∀ c ∈ lib.get_channels,
        (buildChannel lib.library c).isSome = true) →
      LoadExtensionsStep.loadLibraries libs d1 d2 =
        Except.ok
          (d1 ++ (discoveredChannels libs).filter
              (fun p => p.extn_id.is_device_channel),
           d2 ++ (discoveredChannels libs).filter
              (fun p => !p.extn_id.is_device_channel)) := by
  intro libs
  induction libs with
  | nil =>
    intro d1 d2 h
    simp [LoadExtensionsStep.loadLibraries, discoveredChannels]
  | cons head rest ih =>
    intro d1 d2 h
    have hhead := h head (List.mem_cons_self head rest)
    have hch := loadChannels_ok_of_success head.library head.get_channels
      d1 d2 hhead
    simp only [LoadExtensionsStep.loadLibraries, hch]
    rw [ih _ _ (fun lib hm => h lib (List.mem_cons_of_mem _ hm))]
    simp [discoveredChannels, List.filter_append, List.append_assoc]

/-- C6: when every channel symbol of every loaded library passes all three
stages, setup records exactly the device/deferred partition of the
discovered channels: each discovered channel lands in the device batch
when its id is a device channel and in the deferred batch otherwise, the
two batches are disjoint, and their union is all discovered channels. -/
theorem C6_partition (libs : List LoadedLibrary)
    (h : ∀ lib ∈ libs, ∀ c ∈ lib.get_channels,
      (buildChannel lib.library c).isSome = true) :
    LoadExtensionsStep.setup libs =
      Except.ok
        ((discoveredChannels libs).filter (fun p => p.extn_id.is_device_channel),
         (discoveredChannels libs).filter (fun p => !p.extn_id.is_device_channel)) ∧
    (∀ p ∈ (discoveredChannels libs).filter
        (fun p => p.extn_id.is_device_channel),
      p.extn_id.is_device_channel = true) ∧
    (∀ p ∈ (discoveredChannels libs).filter
        (fun p => !p.extn_id.is_device_channel),
      p.extn_id.is_device_channel = false) ∧
    (∀ p : PreLoadedExtnChannel, p ∈ discoveredChannels libs ↔
      (p ∈ (discoveredChannels libs).filter
          (fun p => p.extn_id.is_device_channel) ∨
       p ∈ (discoveredChannels libs).filter
          (fun p => !p.extn_id.is_device_channel))) ∧
    (∀ p : PreLoadedExtnChannel,
      ¬(p ∈ (discoveredChannels libs).filter
          (fun p => p.extn_id.is_device_channel) ∧
        p ∈ (discoveredChannels libs).filter
          (fun p => !p.extn_id.is_device_channel))) := by
  refine ⟨?_, ?_, ?_, ?_, ?_⟩
  · have := loadLibraries_ok_of_success libs [] [] h
    simpa [LoadExtensionsStep.setup] using this
  · intro p hp
    exact (List.mem_filter.mp hp).2
  · intro p hp
    have := (List.mem_filter.mp hp).2
    simpa using this
  · intro p
    constructor
    · intro hp
      by_cases hd : p.extn_id.is_device_channel = true
      · exact Or.inl (List.mem_filter.mpr ⟨hp, hd⟩)
      · refine Or.inr (List.mem_filter.mpr ⟨hp, ?_⟩)
        simpa using hd
    · intro hp
      rcases hp with hp | hp
      · exact (List.mem_filter.mp hp).1
      · exact (List.mem_filter.mp hp).1
  · intro p hp
    obtain ⟨h1, h2⟩ := hp
    have hd1 := (List.mem_filter.mp h1).2
    have hd2 := (List.mem_filter.mp h2).2
    rw [hd1] at hd2
    simp at hd2

/-- C6 witness: a library with one device and one distributor channel is
partitioned by setup into the two filtered batches. -/
theorem C6_witness :
    LoadExtensionsStep.setup [c6Lib] =
      Except.ok
        ((discoveredChannels [c6Lib]).filter
          (fun p => p.extn_id.is_device_channel),
         (discoveredChannels [c6Lib]).filter
          (fun p => !p.extn_id.is_device_channel)) :=
  (C6_partition [c6Lib] (by decide)).1

/-! ## C4: get_channels membership and ordering -/

/-- C4 counterexample: with metadata channel ids in order a, b and manifest
entry symbols in order b, a, get_channels returns the entry order b, a,
which is not order-preserving relative to the metadata symbol list. -/
theorem C4_counterexample :
    (c4Lib.get_channels).map (fun s => s.id) =
      ["ns:channel:b", "ns:channel:a"] ∧
    ¬ List.Sublist ((c4Lib.get_channels).map (fun s => s.id))
        ((c4Lib.metadata.symbols).map (fun m => m.id.toString)) := by
  refine ⟨by decide, ?_⟩
  intro hsub
  have heq := hsub.eq_of_length (by decide)
  rw [show (c4Lib.get_channels).map (fun s => s.id) =
      ["ns:channel:b", "ns:channel:a"] from by decide] at heq
  rw [show (c4Lib.metadata.symbols).map (fun m => m.id.toString) =
      ["ns:channel:a", "ns:channel:b"] from by decide] at heq
  exact absurd heq (by decide)

/-- C4 (amended): get_channels returns exactly those manifest entry symbols
whose id matches, by string, the id of some channel-kind metadata symbol;
the returned list is order-preserving relative to the manifest entry's
declared symbol list (not the metadata's symbol list). -/
theorem C4_membership_and_entry_order (l : LoadedLibrary) :
    (∀ s : ExtnSymbol, s ∈ l.get_channels ↔
      (s ∈ l.entry.symbols ∧
        ∃ m, m ∈ l.metadata.symbols ∧ m.id.is_channel = true ∧
          m.id.toString = s.id)) ∧
    List.Sublist l.get_channels l.entry.symbols := by
  constructor
  · intro s
    unfold LoadedLibrary.get_channels
    simp only [List.mem_filter]
    constructor
    · rintro ⟨hmem, hcont⟩
      refine ⟨hmem, ?_⟩
      have hid := List.elem_iff.mp hcont
      rcases List.mem_map.mp hid with ⟨m, hm, hms⟩
      rcases List.mem_filter.mp hm with ⟨hm2, hch⟩
      exact ⟨m, hm2, hch, hms⟩
    · rintro ⟨hmem, m, hm, hch, hms⟩
      refine ⟨hmem, ?_⟩
      exact List.elem_iff.mpr
        (List.mem_map.mpr ⟨m, List.mem_filter.mpr ⟨hm, hch⟩, hms⟩)
  · exact List.filter_sublist _
